import Mathlib

/-!
Verification development for the Eclipse Shield navigation gating engine.

The definitions below are a shallow embedding of the extension's JavaScript:

* `src/extension/background.js` (the Opera background script): the string
  helpers `extractSearchQuery`, `normalizeUrl`, `isExemptUrl`, `isBlockPage`,
  the `webNavigation.onBeforeNavigate` and `tabs.onUpdated` listeners,
  `blockAllTabs`, and (appended to the same file) the block page's
  `handleAnalysis` / `handleAnalysisResult`.
* `src/unnamed/part_005` (the Chrome background variant): `normalizeUrl`,
  `getUrlKey`, `checkSessionTimeout`, `cleanupAllData`, and the
  `URL_BLOCKED` / `URL_ALLOWED` message handlers.
* `src/unnamed/part_006` (the older Opera variant): `isExemptUrl`,
  its `onBeforeNavigate` listener and its `blockAllTabs`.

JavaScript strings are modelled by Lean `String`; `String.prototype.includes`
and `startsWith` are re-implemented character by character so that all
predicates are executable.  A parsed `new URL(...)` object is modelled by the
structure `JsUrl`; handlers that parse a URL receive the parse as an
`Option JsUrl` argument (`none` models a parse failure, which the source
catches).  Chrome storage reads are modelled by an `Except Unit StorageData`
argument (`.error` models a rejected read, landing in the JS `catch`).
Redirects to the block page are represented structurally by `BlockTarget`
(one field per query parameter the source appends) rather than by the
percent-encoded URL string.
-/

/-- Character-list implementation of JavaScript `String.prototype.startsWith`:
`isPrefixL p s` is true when `p` is a prefix of `s`. -/
def isPrefixL : List Char → List Char → Bool
  | [], _ => true
  | _ :: _, [] => false
  | a :: as, b :: bs => a == b && isPrefixL as bs

/-- Character-list implementation of JavaScript `String.prototype.includes`:
`containsL n s` is true when `n` occurs contiguously inside `s`. -/
def containsL (needle : List Char) : List Char → Bool
  | [] => isPrefixL needle []
  | c :: cs => isPrefixL needle (c :: cs) || containsL needle cs

/-- JS `url.startsWith(p)`. -/
def strStartsWith (s p : String) : Bool := isPrefixL p.data s.data

/-- JS `url.includes(sub)`. -/
def strContains (s sub : String) : Bool := containsL sub.data s.data

/-- JS `String.prototype.toLowerCase` (ASCII fragment, as used by the code). -/
def strToLower (s : String) : String := ⟨s.data.map Char.toLower⟩

/-- A parsed URL, i.e. the result of JavaScript `new URL(url)`:
scheme (protocol without `://`), hostname (lowercased by the parser), port
(`""` when absent), pathname, the search parameters in order, and the hash. -/
structure JsUrl where
  scheme : String
  host : String
  port : String
  path : String
  params : List (String × String)
  hash : String := ""
  deriving DecidableEq, Repr

/-- JS `urlObj.searchParams.get(name)`: first parameter with that name. -/
def searchParamGet (u : JsUrl) (name : String) : Option String :=
  (u.params.find? (fun p => p.1 == name)).map (·.2)

/-- JS `urlObj.origin`. -/
def jsOrigin (u : JsUrl) : String :=
  u.scheme ++ "://" ++ u.host ++ (if u.port == "" then "" else ":" ++ u.port)

/-- JS `urlObj.toString()` (without percent-encoding, which the claims never
touch): origin, path, `?`-joined params, `#`-hash. -/
def renderUrl (u : JsUrl) : String :=
  jsOrigin u ++ u.path ++
    (match u.params with
     | [] => ""
     | ps => "?" ++ String.intercalate "&" (ps.map (fun p => p.1 ++ "=" ++ p.2))) ++
    (if u.hash == "" then "" else "#" ++ u.hash)

/-- `extractSearchQuery` from `src/extension/background.js` lines 146-164:
for duckduckgo.com / google.com / bing.com hostnames return the `q`
parameter (or the empty string), otherwise the empty string. -/
def extractSearchQuery (u : JsUrl) : String :=
  if strContains u.host "duckduckgo.com" then (searchParamGet u "q").getD ""
  else if strContains u.host "google.com" then (searchParamGet u "q").getD ""
  else if strContains u.host "bing.com" then (searchParamGet u "q").getD ""
  else ""

/-- The search-engine hostname test of `normalizeUrl`
(`src/extension/background.js` lines 171-173). -/
def isSearchHost (h : String) : Bool :=
  strContains h "google.com" || strContains h "bing.com" || strContains h "duckduckgo.com"

/-- `urlObj.searchParams.delete` of the three tracking parameters
(`src/extension/background.js` lines 180-182). -/
def deleteUtm (u : JsUrl) : JsUrl :=
  { u with params := u.params.filter (fun p => p.1 != "utm_source" && p.1 != "utm_medium" && p.1 != "utm_campaign") }

/-- JS `.replace(/\/$/, '')`: drop one trailing slash. -/
def dropTrailingSlashL : List Char → List Char
  | [] => []
  | [c] => if c == '/' then [] else [c]
  | c :: rest => c :: dropTrailingSlashL rest

/-- String wrapper for `dropTrailingSlashL`. -/
def dropTrailingSlash (s : String) : String := ⟨dropTrailingSlashL s.data⟩

/-- `normalizeUrl` from `src/extension/background.js` lines 167-189, on a
successfully parsed URL.  For search-engine hosts it produces the per-search
key `origin/search/query-or-home` lowercased (the source comments call this
a unique key for the search); otherwise it strips utm parameters,
lowercases the serialized URL and drops a trailing slash. -/
def normalizeUrl (u : JsUrl) : String :=
  if isSearchHost u.host then
    strToLower (jsOrigin u ++ "/search/" ++
      (let q := extractSearchQuery u; if q == "" then "home" else q))
  else
    dropTrailingSlash (strToLower (renderUrl (deleteUtm u)))

/-- The composite key `searchQuery ? normalized + "::" + searchQuery :
normalized` computed at the call sites (`src/extension/background.js`
lines 318 and 448). -/
def compositeKey (u : JsUrl) : String :=
  let n := normalizeUrl u
  let q := extractSearchQuery u
  if q == "" then n else n ++ "::" ++ q

/-- `isBlockPage` from `src/extension/background.js` lines 206-212:
the URL contains the extension id and `block.html`. -/
def isBlockPage (extId url : String) : Bool :=
  strContains url extId && strContains url "block.html"

/-- `isExemptUrl` from `src/extension/background.js` lines 215-238. -/
def isExemptUrl (extId url : String) : Bool :=
  (["localhost:5000", "127.0.0.1:5000"].any (fun d => strContains url d)) ||
  strStartsWith url "chrome://" ||
  strStartsWith url "chrome-extension://" ||
  strStartsWith url "opera://" ||
  strStartsWith url "about:" ||
  strStartsWith url "file://" ||
  url == "about:blank" ||
  strContains url "localhost:5000" ||
  isBlockPage extId url

/-- JS `chrome.runtime.getURL(path)`. -/
def runtimeGetURL (extId path : String) : String :=
  "chrome-extension://" ++ extId ++ "/" ++ path

/-- `isBlockPage` from `src/unnamed/part_006` lines 103-105. -/
def isBlockPageP6 (extId url : String) : Bool :=
  strContains url (runtimeGetURL extId "block.html")

/-- `isExemptUrl` from `src/unnamed/part_006` lines 108-117. -/
def isExemptUrlP6 (extId url : String) : Bool :=
  strStartsWith url "chrome://" ||
  strStartsWith url "chrome-extension://" ||
  strStartsWith url "opera://" ||
  strStartsWith url "about:" ||
  strStartsWith url "file://" ||
  url == "about:blank" ||
  strContains url "localhost:5000" ||
  isBlockPageP6 extId url

/-- The stored session record (`sessionData` in chrome.storage.local):
state, time window, domain, and the contextual question/answer list. -/
structure SessionData where
  state : String
  startTime : Nat
  endTime : Nat
  domain : String
  context : List (String × String)
  deriving DecidableEq, Repr

/-- The repeated JS condition `!data.sessionData ||
data.sessionData.state !== 'active'`. -/
def noActiveSession : Option SessionData → Bool
  | none => true
  | some sd => sd.state != "active"

/-- A classification entry stored in `blockedUrls` / `allowedUrls`:
url, timestamp, reason, and the search query recorded with it. -/
structure Entry where
  url : String := ""
  timestamp : Nat := 0
  reason : String := ""
  searchQuery : String := ""
  deriving DecidableEq, Repr

/-- JS object property lookup `m[k]` on a key-indexed store. -/
def objLookup (m : List (String × Entry)) (k : String) : Option Entry :=
  (m.find? (fun p => p.1 == k)).map (·.2)

/-- The two-key lookup `m[compositeKey] || m[normalizedUrl]` used at every
cache read site. -/
def lookup2 (m : List (String × Entry)) (k1 k2 : String) : Option Entry :=
  match objLookup m k1 with
  | some e => some e
  | none => objLookup m k2

/-- JS object property assignment `m[k] = v`: replaces the value when the
key is present (an object holds one value per key), appends otherwise. -/
def objSet (m : List (String × Entry)) (k : String) (v : Entry) :
    List (String × Entry) :=
  match m with
  | [] => [(k, v)]
  | (k0, v0) :: rest => if k0 == k then (k, v) :: rest else (k0, v0) :: objSet rest k v

/-- The contents of `chrome.storage.local` the gating engine reads. -/
structure StorageData where
  sessionData : Option SessionData
  blockedUrls : List (String × Entry)
  allowedUrls : List (String × Entry)
  deriving DecidableEq, Repr

/-- The block-page redirect target: `reason` plus the query parameters the
source appends (`url`, `original_url`, `domain`, `explanation`, `context`,
`search_query`), each `none` when the source does not append it. -/
structure BlockTarget where
  reason : String
  url : String
  originalUrl : Option String := none
  domain : Option String := none
  explanation : Option String := none
  context : Option (List (String × String)) := none
  searchQuery : Option String := none
  deriving DecidableEq, Repr

/-- A `URL_ANALYSIS_UPDATE` notification sent to the popup. -/
structure NotifyMsg where
  action : String
  url : String
  reason : String
  deriving DecidableEq, Repr

/-- What one invocation of a navigation listener does: an optional redirect
of the tab to the block page, an optional popup notification, and the URLs
added to the in-flight set `activeUrls`. -/
structure NavResult where
  redirect : Option BlockTarget
  notify : Option NotifyMsg
  addActive : List String
  deriving DecidableEq, Repr

/-- The listener returned without doing anything. -/
def skipResult : NavResult := ⟨none, none, []⟩

/-- Positional constructor for `BlockTarget`, in field order: reason, url,
original_url, domain, explanation, context, search_query. -/
def blockT (reason url : String) (originalUrl domain explanation : Option String)
    (context : Option (List (String × String))) (searchQuery : Option String) : BlockTarget :=
  ⟨reason, url, originalUrl, domain, explanation, context, searchQuery⟩

/-- `normalizeUrl(url)` including the `catch` branch: on a parse failure the
source returns `url.toLowerCase()`. -/
def normalizeUrlStr (url : String) : Option JsUrl → String
  | some u => normalizeUrl u
  | none => strToLower url

/-- `extractSearchQuery(url)` including the `catch` branch (empty string). -/
def extractSearchQueryStr : Option JsUrl → String
  | some u => extractSearchQuery u
  | none => ""

/-- The composite key as computed at both listener call sites
(`src/extension/background.js` lines 318 and 448):
`searchQuery ? normalizedUrl + "::" + searchQuery : normalizedUrl`. -/
def compositeKeyStr (url : String) (parsed : Option JsUrl) : String :=
  let n := normalizeUrlStr url parsed
  let q := extractSearchQueryStr parsed
  if q == "" then n else n ++ "::" ++ q

/-- The `chrome.webNavigation.onBeforeNavigate` listener of
`src/extension/background.js` lines 241-383.  Arguments: the extension id,
the current in-flight set, the navigation's `frameId` and `url` (with its
parse), and the storage read (`.error` = rejected read, landing in `catch`). -/
def onBeforeNavigate (extId : String) (activeUrls : List String)
    (frameId : Nat) (url : String) (parsed : Option JsUrl)
    (st : Except Unit StorageData) : NavResult :=
  if frameId != 0 || !(strStartsWith url "http") then skipResult
  else
    match st with
    | .error _ =>
        if !(isExemptUrl extId url) then
          ⟨some (blockT "error" url none none none none none), none, []⟩
        else skipResult
    | .ok data =>
        if noActiveSession data.sessionData then
          if !(isExemptUrl extId url) then
            ⟨some (blockT "no-session" url (some url) none none none none), none, []⟩
          else
            skipResult
        else
          match data.sessionData with
          | none => skipResult
          | some sd =>
            if isExemptUrl extId url then skipResult
            else if strContains url extId && strContains url "block.html" then skipResult
            else
              let normalizedUrl := normalizeUrlStr url parsed
              let searchQuery := extractSearchQueryStr parsed
              let ck := compositeKeyStr url parsed
              if searchQuery != "" then
                ⟨some (blockT "analyzing" url (some url) (some sd.domain) none (some sd.context) (some searchQuery)), none, [url]⟩
              else
                match lookup2 data.blockedUrls ck normalizedUrl with
                | some be =>
                    ⟨some (blockT "blocked" url (some url) (some sd.domain) (some be.reason) none none), none, []⟩
                | none =>
                    ⟨some (blockT "analyzing" url (some url) (some sd.domain) none (some sd.context) none), none, [url]⟩

/-- The `chrome.tabs.onUpdated` listener of `src/extension/background.js`
lines 386-510.  `changeUrl` is `changeInfo.url` (`none` when the update does
not change the URL). -/
def onUpdated (extId : String) (activeUrls : List String)
    (changeUrl : Option String) (parsed : Option JsUrl)
    (st : Except Unit StorageData) : NavResult :=
  match changeUrl with
  | none => skipResult
  | some url =>
    if !(strStartsWith url "http") then skipResult
    else
      match st with
      | .error _ =>
          if !(isExemptUrl extId url) then
            ⟨some (blockT "error" url none none none none none), none, []⟩
          else skipResult
      | .ok data =>
          if noActiveSession data.sessionData then
            if !(isExemptUrl extId url) then
              ⟨some (blockT "no-session" url (some url) none none none none), none, []⟩
            else
              skipResult
          else
            match data.sessionData with
            | none => skipResult
            | some sd =>
              if isExemptUrl extId url then skipResult
              else if isBlockPage extId url then skipResult
              else
                let normalizedUrl := normalizeUrlStr url parsed
                let ck := compositeKeyStr url parsed
                match lookup2 data.blockedUrls ck normalizedUrl with
                | some be =>
                    ⟨some (blockT "blocked" url (some url) (some sd.domain) (some be.reason) none none),
                     some ⟨"blocked", url, if be.reason == "" then "Blocked by policy" else be.reason⟩, []⟩
                | none =>
                    match lookup2 data.allowedUrls ck normalizedUrl with
                    | some ae =>
                        ⟨none, some ⟨"allowed", url, if ae.reason == "" then "Content is productive" else ae.reason⟩, []⟩
                    | none =>
                        if !(activeUrls.contains url) then
                          ⟨some (blockT "analyzing" url (some url) (some sd.domain) none (some sd.context) none), none, [url]⟩
                        else skipResult

/-- The `chrome.webNavigation.onBeforeNavigate` listener of
`src/unnamed/part_006` lines 120-163: it blocks on no session and otherwise
leaves the tab to the other listeners. -/
def onBeforeNavigateP6 (extId : String) (frameId : Nat) (url : String)
    (st : Except Unit StorageData) : NavResult :=
  if frameId != 0 || !(strStartsWith url "http") then skipResult
  else
    match st with
    | .error _ =>
        if !(isExemptUrlP6 extId url) then
          ⟨some (blockT "error" url none none none none none), none, []⟩
        else skipResult
    | .ok data =>
        if noActiveSession data.sessionData then
          if !(isExemptUrlP6 extId url) then
            ⟨some (blockT "no-session" url (some url) none none none none), none, []⟩
          else skipResult
        else skipResult

/-- `normalizeUrl` from `src/unnamed/part_005` lines 1183-1190:
`hostname.toLowerCase() + pathname`. -/
def normalizeUrlP5 (u : JsUrl) : String := strToLower u.host ++ u.path

/-- `getUrlKey` from `src/unnamed/part_005` lines 1193-1201: the normalized
URL, with `::query` appended when a `q` search parameter is present. -/
def getUrlKey (u : JsUrl) : String :=
  let normalized := normalizeUrlP5 u
  let q := (searchParamGet u "q").getD ""
  if q == "" then normalized else normalized ++ "::" ++ q

/-- `checkSessionTimeout` from `src/unnamed/part_005` lines 1024-1037:
returns whether the periodic sweep finds the session expired (a stored
record with a truthy `endTime` whose remaining time is not positive) and
therefore runs `cleanupAllData`. -/
def checkSessionTimeoutFires (sd : Option SessionData) (now : Nat) : Bool :=
  match sd with
  | some s => s.endTime != 0 && decide ((s.endTime : Int) - (now : Int) <= 0)
  | none => false

/-- `cleanupAllData` (`src/unnamed/part_005` lines 1008-1021 and
`src/extension/background.js` lines 666-674): `chrome.storage.local.clear()`
removes the session record and both cache sets. -/
def cleanupAllData (_st : StorageData) : StorageData := ⟨none, [], []⟩

/-- Kind of a classification message sent by the analysis page. -/
inductive MsgKind where
  | blocked
  | allowed
  deriving DecidableEq, Repr

/-- A `URL_BLOCKED` / `URL_ALLOWED` runtime message: the raw URL string it
carries (used for the in-flight set) together with its parse (the receiving
handler re-parses it), and the reason (empty string models an absent or
falsy `message.reason`). -/
structure UrlMsg where
  kind : MsgKind
  urlStr : String
  parsed : JsUrl
  reason : String := ""
  deriving DecidableEq, Repr

/-- The background engine state the message handlers mutate: the two cache
sets in storage plus the in-memory in-flight set `activeUrls`. -/
structure BgState where
  blockedUrls : List (String × Entry)
  allowedUrls : List (String × Entry)
  activeUrls : List String
  deriving DecidableEq, Repr

/-- The `chrome.runtime.onMessage` listener of `src/unnamed/part_005`
lines 1706-1772: a `URL_BLOCKED` message stores an entry in `blockedUrls`
under `getUrlKey(message.url)` and deletes the raw URL from `activeUrls`;
a `URL_ALLOWED` message does the same on `allowedUrls`.  Neither handler
touches the opposite set. -/
def onMessage (st : BgState) (m : UrlMsg) (now : Nat) : BgState :=
  match m.kind with
  | .blocked =>
      let urlKey := getUrlKey m.parsed
      let entry : Entry := ⟨m.urlStr, now,
        (if m.reason == "" then "Not relevant to current task" else m.reason),
        (searchParamGet m.parsed "q").getD ""⟩
      ⟨objSet st.blockedUrls urlKey entry, st.allowedUrls,
       st.activeUrls.filter (fun u => u != m.urlStr)⟩
  | .allowed =>
      let urlKey := getUrlKey m.parsed
      let entry : Entry := ⟨m.urlStr, now,
        (if m.reason == "" then "Content is productive" else m.reason),
        (searchParamGet m.parsed "q").getD ""⟩
      ⟨st.blockedUrls, objSet st.allowedUrls urlKey entry,
       st.activeUrls.filter (fun u => u != m.urlStr)⟩

/-- Fold a list of messages through `onMessage`. -/
def processMessages (st : BgState) (ms : List UrlMsg) (now : Nat) : BgState :=
  ms.foldl (fun s m => onMessage s m now) st

/-- Result of the analyzer call as parsed from the HTTP response body. -/
structure ARes where
  isProductive : Bool
  explanation : String
  deriving DecidableEq, Repr

/-- Outcome of the `fetch('http://localhost:5000/analyze', ...)` call:
a network failure (the promise rejects), or an HTTP response with its
`ok` flag and parsed body. -/
inductive FetchOutcome where
  | networkError
  | httpResponse (ok : Bool) (result : ARes)
  deriving DecidableEq, Repr

/-- A sessionStorage entry of the analysis page: cached analyzer result
with the timestamp it was stored at. -/
structure CachedAnalysis where
  result : ARes
  timestamp : Nat
  deriving DecidableEq, Repr

/-- What one run of the analysis page does: which UI section it leaves
visible, the classification messages it sends to the background, and
where it navigates the tab (if anywhere). -/
structure AnalysisOutcome where
  shownSection : String
  messages : List UrlMsg
  redirectedTo : Option String
  deriving DecidableEq, Repr

/-- `handleAnalysisResult` from the block-page script appended to
`src/extension/background.js` (lines 919-965): a productive result sends
`URL_ALLOWED` and navigates back to the original URL; otherwise the blocked
section is shown and `URL_BLOCKED` is sent with the explanation.  (In this
typed embedding the analyzer result always has the object shape, so the
legacy-format branch of the source collapses onto the same two outcomes.) -/
def handleAnalysisResult (result : ARes) (originalUrl : String) (origParsed : JsUrl) :
    AnalysisOutcome :=
  if result.isProductive then
    ⟨"analyzing", [⟨MsgKind.allowed, originalUrl, origParsed, ""⟩], some originalUrl⟩
  else
    ⟨"blocked", [⟨MsgKind.blocked, originalUrl, origParsed, result.explanation⟩], none⟩

/-- `handleAnalysis` from the block-page script appended to
`src/extension/background.js` (lines 842-917).  A valid sessionStorage
cache entry (truthy timestamp, younger than one minute) short-circuits to
`handleAnalysisResult`; otherwise the analyzer is called: a network error
or a non-ok response throws into the `catch`, which shows the error section
and sends nothing; a productive result navigates back to the original URL;
an unproductive one shows the blocked section and sends `URL_BLOCKED`. -/
def handleAnalysis (originalUrl : String) (origParsed : JsUrl)
    (cached : Option CachedAnalysis) (now : Nat) (fetch : FetchOutcome) :
    AnalysisOutcome :=
  let isCacheValid :=
    match cached with
    | some c => c.timestamp != 0 && decide ((now : Int) - (c.timestamp : Int) < 60000)
    | none => false
  if isCacheValid then
    match cached with
    | some c => handleAnalysisResult c.result originalUrl origParsed
    | none => ⟨"analyzing", [], none⟩
  else
    match fetch with
    | FetchOutcome.networkError => ⟨"error", [], none⟩
    | FetchOutcome.httpResponse false _ => ⟨"error", [], none⟩
    | FetchOutcome.httpResponse true r =>
        if r.isProductive then ⟨"analyzing", [], some originalUrl⟩
        else ⟨"blocked", [⟨MsgKind.blocked, originalUrl, origParsed, r.explanation⟩], none⟩

/-- An open browser tab as seen through `chrome.tabs.query`. -/
structure TabInfo where
  id : Nat
  url : String
  deriving DecidableEq, Repr

/-- What a session-teardown routine does to the open tabs: the reason of
the single landing tab it creates (if any), the ids of the tabs it closes,
and the per-tab block-page rewrites it performs. -/
structure BlockAllResult where
  createdReason : Option String
  closed : List Nat
  updated : List (Nat × BlockTarget)
  deriving DecidableEq, Repr

/-- `blockAllTabs` from `src/extension/background.js` lines 513-533:
creates one block landing tab with reason `before-block`, then closes every
other tab (`newTabId` is the id the browser gave the fresh landing tab).
No tab is rewritten. -/
def blockAllTabsOpera (tabs : List TabInfo) (newTabId : Nat) : BlockAllResult :=
  ⟨some "before-block", (tabs.filter (fun t => t.id != newTabId)).map (fun t => t.id), []⟩

/-- `blockAllTabs` from `src/unnamed/part_006` lines 207-221: rewrites every
open tab with a truthy, non-exempt URL to the block page with reason
`session-ended`, closing nothing. -/
def blockAllTabsP6 (extId : String) (tabs : List TabInfo) : BlockAllResult :=
  ⟨none, [],
   (tabs.filter (fun t => t.url != "" && !(isExemptUrlP6 extId t.url))).map
     (fun t => (t.id, blockT "session-ended" t.url none none none none none))⟩

/-- The transition test of the `chrome.storage.onChanged` listeners
(`src/extension/background.js` lines 585-586 and `src/unnamed/part_006`
lines 232-233): the old record was active and the new one is absent or not
active. -/
def sessionBecameInactive (oldS newS : Option SessionData) : Bool :=
  (match oldS with | some o => o.state == "active" | none => false) &&
  (match newS with | some n => n.state != "active" | none => true)

/-- The `chrome.storage.onChanged` listener of `src/extension/background.js`
lines 577-591: on an active-to-inactive transition it runs `blockAllTabs`. -/
def onSessionChangedOpera (oldS newS : Option SessionData) (tabs : List TabInfo)
    (newTabId : Nat) : Option BlockAllResult :=
  if sessionBecameInactive oldS newS then some (blockAllTabsOpera tabs newTabId) else none

/-- Exemption predicate following the wording of spec section 4.2: the
scheme is an internal browser scheme (`chrome://`, `opera://`, `about:`),
an extension-page scheme, or a local file scheme; or the origin equals the
analyzer service origin `http://localhost:5000`; or the URL is the
extension's own block page.  This is the spec-side definition against which
the source's `isExemptUrl` is compared. -/
def specExemptUrl (extId url : String) : Bool :=
  strStartsWith url "chrome://" ||
  strStartsWith url "opera://" ||
  strStartsWith url "about:" ||
  strStartsWith url "chrome-extension://" ||
  strStartsWith url "file://" ||
  strStartsWith url "http://localhost:5000/" ||
  url == "http://localhost:5000" ||
  isBlockPage extId url

/-! ### Support lemmas -/

/-- `isPrefixL` agrees with the library prefix relation. -/
theorem isPrefixL_iff (p s : List Char) : isPrefixL p s = true ↔ p <+: s := by
  induction p generalizing s with
  | nil => simp [isPrefixL]
  | cons a as ih =>
    cases s with
    | nil => simp [isPrefixL]
    | cons b bs => simp [isPrefixL, List.cons_prefix_cons, ih]

/-- `containsL` agrees with the library infix relation. -/
theorem containsL_iff (n s : List Char) : containsL n s = true ↔ n <:+: s := by
  induction s with
  | nil => simp [containsL, isPrefixL_iff, List.infix_nil, List.prefix_nil]
  | cons c cs ih => simp [containsL, isPrefixL_iff, ih, List.infix_cons_iff]

/-- `strContains` in terms of the infix relation. -/
theorem strContains_iff (s sub : String) :
    strContains s sub = true ↔ sub.data <:+: s.data := by
  simp [strContains, containsL_iff]

/-- `strStartsWith` in terms of the prefix relation. -/
theorem strStartsWith_iff (s p : String) :
    strStartsWith s p = true ↔ p.data <+: s.data := by
  simp [strStartsWith, isPrefixL_iff]

/-- `objSet` really overwrites: looking the key up afterwards returns the
new value. -/
theorem objLookup_objSet_self (m : List (String × Entry)) (k : String) (v : Entry) :
    objLookup (objSet m k v) k = some v := by
  induction m with
  | nil => simp [objSet, objLookup, List.find?]
  | cons p rest ih =>
    obtain ⟨k0, v0⟩ := p
    by_cases h : k0 = k
    · subst h
      simp [objSet, objLookup, List.find?]
    · have hb : (k0 == k) = false := beq_eq_false_iff_ne.mpr h
      simp only [objSet, hb, Bool.false_eq_true, if_false]
      simpa [objLookup, List.find?, hb] using ih

/-- Keys reachable after an `objSet` were present before or are the new key. -/
theorem mem_keys_objSet (m : List (String × Entry)) (k : String) (v : Entry)
    (x : String) (hx : x ∈ (objSet m k v).map Prod.fst) :
    x ∈ m.map Prod.fst ∨ x = k := by
  induction m with
  | nil => simpa [objSet] using hx
  | cons p rest ih =>
    obtain ⟨k0, v0⟩ := p
    by_cases h : k0 = k
    · subst h
      simp only [objSet, beq_self_eq_true, if_true, List.map_cons, List.mem_cons] at hx
      simp only [List.map_cons, List.mem_cons]
      tauto
    · have hb : (k0 == k) = false := beq_eq_false_iff_ne.mpr h
      simp only [objSet, hb, Bool.false_eq_true, if_false, List.map_cons, List.mem_cons] at hx
      simp only [List.map_cons, List.mem_cons]
      rcases hx with hx | hx
      · exact Or.inl (Or.inl hx)
      · rcases ih hx with h1 | h2
        · exact Or.inl (Or.inr h1)
        · exact Or.inr h2

/-- `objSet` keeps the keys of a store duplicate-free. -/
theorem nodup_keys_objSet (m : List (String × Entry)) (k : String) (v : Entry)
    (h : (m.map Prod.fst).Nodup) : ((objSet m k v).map Prod.fst).Nodup := by
  induction m with
  | nil => simp [objSet]
  | cons p rest ih =>
    obtain ⟨k0, v0⟩ := p
    simp only [List.map_cons, List.nodup_cons] at h
    by_cases hk : k0 = k
    · subst hk
      simp only [objSet, beq_self_eq_true, if_true, List.map_cons, List.nodup_cons]
      exact h
    · have hb : (k0 == k) = false := beq_eq_false_iff_ne.mpr hk
      simp only [objSet, hb, Bool.false_eq_true, if_false, List.map_cons, List.nodup_cons]
      refine ⟨fun hmem => ?_, ih h.2⟩
      rcases mem_keys_objSet rest k v k0 hmem with h1 | h2
      · exact h.1 h1
      · exact hk h2

/-! ### Claim theorems -/

/-- C10.  Implicit scope restriction of the gate: when the navigation
signal has `frameId != 0` or a URL that does not start with `http`, both
pre-navigation listeners (`src/extension/background.js` line 252 and
`src/unnamed/part_006` line 122) return immediately: the result is the
empty `skipResult` regardless of the storage contents (the storage read
never influences the outcome), so no redirect happens in any session
state. -/
theorem c10_gate_skips_subframes_and_non_http (extId : String) (au : List String)
    (frameId : Nat) (url : String) (parsed : Option JsUrl)
    (st : Except Unit StorageData)
    (h : frameId ≠ 0 ∨ strStartsWith url "http" = false) :
    onBeforeNavigate extId au frameId url parsed st = skipResult ∧
    onBeforeNavigateP6 extId frameId url st = skipResult := by
  have hc : (frameId != 0 || !(strStartsWith url "http")) = true := by
    rcases h with h | h
    · simp [h]
    · simp [h]
  constructor
  · simp [onBeforeNavigate, hc]
  · simp [onBeforeNavigateP6, hc]

/-- Witness for C10 at a concrete input: a subframe navigation
(`frameId = 1`) to an http URL is skipped by both listeners even with no
session stored. -/
theorem c10_gate_skips_subframes_and_non_http_witness :
    onBeforeNavigate "extid" [] 1 "https://a.test/x" none (Except.ok ⟨none, [], []⟩) = skipResult ∧
    onBeforeNavigateP6 "extid" 1 "https://a.test/x" (Except.ok ⟨none, [], []⟩) = skipResult :=
  c10_gate_skips_subframes_and_non_http "extid" [] 1 "https://a.test/x" none
    (Except.ok ⟨none, [], []⟩) (Or.inl (by decide))

/-- C9, counterexample.  The claim says a navigation whose handling raises
an error is redirected to the block page and never allowed to proceed.
For the exempt URL `http://localhost:5000/health` (the analyzer's own
health endpoint, which passes the http gate) a failing storage read lands
in the `catch`, whose `if (!isExemptUrl(...))` guard skips the redirect:
the navigation proceeds. -/
theorem c9_error_allows_exempt_counterexample :
    isExemptUrl "extidc9" "http://localhost:5000/health" = true ∧
    onBeforeNavigate "extidc9" [] 0 "http://localhost:5000/health"
      (some ⟨"http", "localhost", "5000", "/health", [], ""⟩) (Except.error ()) = skipResult ∧
    onUpdated "extidc9" [] (some "http://localhost:5000/health")
      (some ⟨"http", "localhost", "5000", "/health", [], ""⟩) (Except.error ()) = skipResult := by
  refine ⟨by decide, by decide, by decide⟩

/-- C9, amended.  Default-deny on failure for non-exempt URLs: when the
storage read of a gate-passing navigation fails, both listeners redirect
the tab to the block page with reason `error`; and the blocking condition
is exactly the one used with no active session (the error is treated as
"no active session"): the exempt carve-out is the same in both. -/
theorem c9_error_blocks_non_exempt (extId : String) (au : List String)
    (url : String) (parsed : Option JsUrl) (h1 : strStartsWith url "http" = true)
    (h2 : isExemptUrl extId url = false) :
    (onBeforeNavigate extId au 0 url parsed (Except.error ())).redirect =
      some (blockT "error" url none none none none none) ∧
    (onUpdated extId au (some url) parsed (Except.error ())).redirect =
      some (blockT "error" url none none none none none) ∧
    ((onBeforeNavigate extId au 0 url parsed
        (Except.ok ⟨none, [], []⟩)).redirect).isSome = true := by
  refine ⟨?_, ?_, ?_⟩
  · simp [onBeforeNavigate, h1, h2]
  · simp [onUpdated, h1, h2]
  · simp [onBeforeNavigate, h1, h2, noActiveSession]

/-- Witness for C9 amended, at the concrete non-exempt URL
`https://news.example/` with a failing storage read. -/
theorem c9_error_blocks_non_exempt_witness :
    (onBeforeNavigate "extidw9" [] 0 "https://news.example/" none (Except.error ())).redirect =
      some (blockT "error" "https://news.example/" none none none none none) ∧
    (onUpdated "extidw9" [] (some "https://news.example/") none (Except.error ())).redirect =
      some (blockT "error" "https://news.example/" none none none none none) ∧
    ((onBeforeNavigate "extidw9" [] 0 "https://news.example/" none
        (Except.ok ⟨none, [], []⟩)).redirect).isSome = true :=
  c9_error_blocks_non_exempt "extidw9" [] "https://news.example/" none (by decide) (by decide)

/-- C7, counterexample.  The claim states the exemption predicate returns
true exactly on the spec's set (internal scheme, extension scheme, file
scheme, analyzer origin, block page).  The code tests
`url.includes('localhost:5000')` as a substring, so
`https://evil.example/localhost:5000` — whose origin is
`https://evil.example`, not the analyzer's — is exempt in the code but not
under the spec's description. -/
theorem c7_exempt_substring_counterexample :
    isExemptUrl "extidc7" "https://evil.example/localhost:5000" = true ∧
    specExemptUrl "extidc7" "https://evil.example/localhost:5000" = false := by
  refine ⟨by decide, by decide⟩

/-- C7, amended.  The code's exemption predicate is a superset of the
spec's: every URL exempt under the spec wording (section 4.2) is exempt in
the code; and exemption really bypasses the gate: an exempt URL is never
redirected by either navigation listener, in any session state (including
a failed storage read).  The converse inclusion fails (see the
counterexample): the substring checks `localhost:5000` / `127.0.0.1:5000`
accept URLs whose origin is not the analyzer's. -/
theorem c7_exempt_superset_and_bypass (extId url : String) (au : List String)
    (frameId : Nat) (parsed : Option JsUrl) (st : Except Unit StorageData) :
    (specExemptUrl extId url = true → isExemptUrl extId url = true) ∧
    (isExemptUrl extId url = true →
      (onBeforeNavigate extId au frameId url parsed st).redirect = none ∧
      (onUpdated extId au (some url) parsed st).redirect = none) := by
  refine ⟨fun hspec => ?_, fun hex => ⟨?_, ?_⟩⟩
  · -- spec-exempt implies code-exempt
    simp only [specExemptUrl, Bool.or_eq_true] at hspec
    rcases hspec with ((((((h | h) | h) | h) | h) | h) | h) | h
    · simp [isExemptUrl, h]
    · simp [isExemptUrl, h]
    · simp [isExemptUrl, h]
    · simp [isExemptUrl, h]
    · simp [isExemptUrl, h]
    · -- prefix http://localhost:5000/ implies the substring check
      have hp : ("http://localhost:5000/").data <+: url.data := (strStartsWith_iff _ _).mp h
      have hi : ("localhost:5000").data <:+: ("http://localhost:5000/").data :=
        (strContains_iff _ _).mp (by decide)
      have : strContains url "localhost:5000" = true :=
        (strContains_iff _ _).mpr (hi.trans hp.isInfix)
      simp [isExemptUrl, this]
    · -- url equals the analyzer origin itself
      have he : url = "http://localhost:5000" := by simpa using h
      subst he
      have : strContains "http://localhost:5000" "localhost:5000" = true := by decide
      simp [isExemptUrl, this]
    · simp [isExemptUrl, isBlockPage] at h ⊢
      simp [h]
  · -- exempt URLs are never redirected by onBeforeNavigate
    by_cases hg : (frameId != 0 || !(strStartsWith url "http")) = true
    · simp [onBeforeNavigate, hg, skipResult]
    · cases st with
      | error e => simp [onBeforeNavigate, hg, hex, skipResult]
      | ok data =>
        by_cases hna : noActiveSession data.sessionData
        · simp [onBeforeNavigate, hg, hna, hex, skipResult]
        · cases hsd : data.sessionData with
          | none => simp [onBeforeNavigate, hg, hna, hsd, noActiveSession, hex, skipResult]
          | some sd => simp [onBeforeNavigate, hg, hna, hsd, hex, skipResult]
  · -- exempt URLs are never redirected by onUpdated
    by_cases hg : (!(strStartsWith url "http")) = true
    · simp [onUpdated, hg, skipResult]
    · cases st with
      | error e => simp [onUpdated, hg, hex, skipResult]
      | ok data =>
        by_cases hna : noActiveSession data.sessionData
        · simp [onUpdated, hg, hna, hex, skipResult]
        · cases hsd : data.sessionData with
          | none => simp [onUpdated, hg, hna, hsd, noActiveSession, hex, skipResult]
          | some sd => simp [onUpdated, hg, hna, hsd, hex, skipResult]

/-- Witness for C7 amended at a concrete input: a `chrome://` settings page
is spec-exempt and code-exempt, and is not redirected even though no
session is stored. -/
theorem c7_exempt_superset_and_bypass_witness :
    isExemptUrl "extidw7" "chrome://settings" = true ∧
    (onBeforeNavigate "extidw7" [] 0 "chrome://settings" none
        (Except.ok ⟨none, [], []⟩)).redirect = none ∧
    (onUpdated "extidw7" [] (some "chrome://settings") none
        (Except.ok ⟨none, [], []⟩)).redirect = none :=
  ⟨(c7_exempt_superset_and_bypass "extidw7" "chrome://settings" [] 0 none
      (Except.ok ⟨none, [], []⟩)).1 (by decide),
   (c7_exempt_superset_and_bypass "extidw7" "chrome://settings" [] 0 none
      (Except.ok ⟨none, [], []⟩)).2 (by decide)⟩

/-- C1, counterexample.  The claim says every navigation evaluated while
the stored session has `endTime` in the past is blocked, even if the state
field still says `active`.  Take the clock at 100 and a stored record with
`state = active`, `endTime = 5` (long past) whose url key is cached in the
allowed-set: the `tabs.onUpdated` listener — which reads only the `state`
field and never `endTime` — allows the navigation (no redirect, only an
`allowed` popup notification). -/
theorem c1_expired_session_allows_counterexample :
    (({ state := "active", startTime := 0, endTime := 5, domain := "work",
        context := [] } : SessionData).endTime < 100) ∧
    onUpdated "extidc1" [] (some "https://a.test/x")
      (some ⟨"https", "a.test", "", "/x", [], ""⟩)
      (Except.ok ⟨some ⟨"active", 0, 5, "work", []⟩, [],
        [("https://a.test/x", ⟨"https://a.test/x", 1, "ok", ""⟩)]⟩) =
      ⟨none, some ⟨"allowed", "https://a.test/x", "ok"⟩, []⟩ := by
  refine ⟨by decide, by decide⟩

/-- C1, amended.  The navigation listeners consult only the `state` field:
whenever the stored record is absent or not `active`, a gate-passing
non-exempt navigation is blocked with reason `no-session` (part a).
Expiry of a record still marked `active` is enforced only by the periodic
sweeper `checkSessionTimeout`: once `endTime` (truthy) is at or before the
clock it fires and runs `cleanupAllData`, after which the store holds no
session and the same navigation is blocked (part b).  Between expiry and
the sweep a record still marked `active` is treated as active (see the
counterexample). -/
theorem c1_state_only_blocking_and_sweeper (extId : String) (au : List String)
    (url : String) (parsed : Option JsUrl) (data : StorageData)
    (s : SessionData) (now : Nat)
    (hhttp : strStartsWith url "http" = true)
    (hex : isExemptUrl extId url = false)
    (hna : noActiveSession data.sessionData = true)
    (hend : s.endTime ≠ 0) (hpast : (s.endTime : Int) - (now : Int) ≤ 0) :
    (onBeforeNavigate extId au 0 url parsed (Except.ok data)).redirect =
      some (blockT "no-session" url (some url) none none none none) ∧
    checkSessionTimeoutFires (some s) now = true ∧
    (onBeforeNavigate extId au 0 url parsed
        (Except.ok (cleanupAllData data))).redirect =
      some (blockT "no-session" url (some url) none none none none) := by
  refine ⟨?_, ?_, ?_⟩
  · simp [onBeforeNavigate, hhttp, hna, hex]
  · simp [checkSessionTimeoutFires, hend, hpast]
  · simp [onBeforeNavigate, hhttp, hex, cleanupAllData, noActiveSession]

/-- Witness for C1 amended: a concrete inactive record and an expired
session record at clock 100. -/
theorem c1_state_only_blocking_and_sweeper_witness :
    (onBeforeNavigate "extidw1" [] 0 "https://b.test/y" none
        (Except.ok ⟨some ⟨"ended", 0, 5, "work", []⟩, [], []⟩)).redirect =
      some (blockT "no-session" "https://b.test/y" (some "https://b.test/y") none none none none) ∧
    checkSessionTimeoutFires (some ⟨"active", 0, 5, "work", []⟩) 100 = true ∧
    (onBeforeNavigate "extidw1" [] 0 "https://b.test/y" none
        (Except.ok (cleanupAllData ⟨some ⟨"ended", 0, 5, "work", []⟩, [], []⟩))).redirect =
      some (blockT "no-session" "https://b.test/y" (some "https://b.test/y") none none none none) :=
  c1_state_only_blocking_and_sweeper "extidw1" [] "https://b.test/y" none
    ⟨some ⟨"ended", 0, 5, "work", []⟩, [], []⟩ ⟨"active", 0, 5, "work", []⟩ 100
    (by decide) (by decide) (by decide) (by decide) (by decide)

/-- C2, counterexample.  The claim says a navigation under an active
session to a non-search URL whose key is in the allowed-set is allowed
with no analysis.  The `onBeforeNavigate` listener never consults the
allowed-set (the source comments "Always redirect to analysis page for
every navigation/search"): with the key cached as allowed, a second visit
is still redirected to the analysis page (`reason=analyzing`), not
allowed. -/
theorem c2_cache_hit_not_allowed_counterexample :
    objLookup [("https://c.test/z", ⟨"https://c.test/z", 2, "fine", ""⟩)]
      (normalizeUrl ⟨"https", "c.test", "", "/z", [], ""⟩) =
      some ⟨"https://c.test/z", 2, "fine", ""⟩ ∧
    onBeforeNavigate "extidc2" [] 0 "https://c.test/z"
      (some ⟨"https", "c.test", "", "/z", [], ""⟩)
      (Except.ok ⟨some ⟨"active", 0, 900, "proj", [("goal", "ship")]⟩, [],
        [("https://c.test/z", ⟨"https://c.test/z", 2, "fine", ""⟩)]⟩) =
      ⟨some (blockT "analyzing" "https://c.test/z" (some "https://c.test/z")
        (some "proj") none (some [("goal", "ship")]) none), none, ["https://c.test/z"]⟩ := by
  refine ⟨by decide, by decide⟩

/-- C2, amended.  The cache-hit allow holds only in the `tabs.onUpdated`
listener: under an active session, for a non-exempt non-block-page URL
whose key misses the blocked-set and hits the allowed-set, `onUpdated`
performs no redirect and no analysis — it only emits the non-blocking
`allowed` popup notification.  The `onBeforeNavigate` listener instead
redirects every non-blocked URL to the analysis page regardless of the
allowed-set (see the counterexample). -/
theorem c2_cache_hit_allows_in_onUpdated (extId : String) (au : List String)
    (url : String) (parsed : Option JsUrl) (data : StorageData)
    (sd : SessionData) (ae : Entry)
    (hhttp : strStartsWith url "http" = true)
    (hsd : data.sessionData = some sd) (hstate : sd.state = "active")
    (hex : isExemptUrl extId url = false)
    (hb : lookup2 data.blockedUrls (compositeKeyStr url parsed)
      (normalizeUrlStr url parsed) = none)
    (ha : lookup2 data.allowedUrls (compositeKeyStr url parsed)
      (normalizeUrlStr url parsed) = some ae) :
    onUpdated extId au (some url) parsed (Except.ok data) =
      ⟨none, some ⟨"allowed", url,
        if ae.reason == "" then "Content is productive" else ae.reason⟩, []⟩ := by
  have hbp : isBlockPage extId url = false := by
    cases hbp0 : isBlockPage extId url with
    | false => rfl
    | true =>
      exfalso
      have hall : isExemptUrl extId url = true := by simp [isExemptUrl, hbp0]
      rw [hall] at hex
      cases hex
  simp [onUpdated, hhttp, hsd, noActiveSession, hstate, hex, hbp, hb, ha]

/-- Witness for C2 amended: a concrete second visit handled by
`tabs.onUpdated` with the key cached as allowed. -/
theorem c2_cache_hit_allows_in_onUpdated_witness :
    onUpdated "extidw2" [] (some "https://d.test/w")
      (some ⟨"https", "d.test", "", "/w", [], ""⟩)
      (Except.ok ⟨some ⟨"active", 0, 900, "proj", []⟩, [],
        [("https://d.test/w", ⟨"https://d.test/w", 3, "good", ""⟩)]⟩) =
      ⟨none, some ⟨"allowed", "https://d.test/w",
        if ("good" : String) == "" then "Content is productive" else "good"⟩, []⟩ :=
  c2_cache_hit_allows_in_onUpdated "extidw2" [] "https://d.test/w"
    (some ⟨"https", "d.test", "", "/w", [], ""⟩)
    ⟨some ⟨"active", 0, 900, "proj", []⟩, [],
      [("https://d.test/w", ⟨"https://d.test/w", 3, "good", ""⟩)]⟩
    ⟨"active", 0, 900, "proj", []⟩ ⟨"https://d.test/w", 3, "good", ""⟩
    (by decide) rfl rfl (by decide) (by decide) (by decide)

/-- C3, counterexample.  The claim says a second signal for a key already
in the in-flight set takes no action.  The `onBeforeNavigate` listener
never checks the set: with `https://e.test/v` already in `activeUrls`, a
second pre-navigation signal still redirects to the analysis page (and
adds the URL again), triggering a second external analysis call. -/
theorem c3_duplicate_signal_acts_counterexample :
    ["https://e.test/v"].contains "https://e.test/v" = true ∧
    onBeforeNavigate "extidc3" ["https://e.test/v"] 0 "https://e.test/v"
      (some ⟨"https", "e.test", "", "/v", [], ""⟩)
      (Except.ok ⟨some ⟨"active", 0, 900, "proj", []⟩, [], []⟩) =
      ⟨some (blockT "analyzing" "https://e.test/v" (some "https://e.test/v")
        (some "proj") none (some []) none), none, ["https://e.test/v"]⟩ := by
  refine ⟨by decide, by decide⟩

/-- C3, amended.  Duplicate suppression exists only in the `tabs.onUpdated`
listener, and it is keyed by the raw URL string, not by the urlKey: when
the URL is already in `activeUrls` (and misses both cache sets) the second
`onUpdated` signal takes no action.  The `onBeforeNavigate` listener
performs no in-flight check at all (see the counterexample), so duplicate
pre-navigation signals each trigger an analysis redirect. -/
theorem c3_in_flight_suppresses_onUpdated (extId : String) (au : List String)
    (url : String) (parsed : Option JsUrl) (data : StorageData)
    (sd : SessionData)
    (hhttp : strStartsWith url "http" = true)
    (hsd : data.sessionData = some sd) (hstate : sd.state = "active")
    (hex : isExemptUrl extId url = false)
    (hb : lookup2 data.blockedUrls (compositeKeyStr url parsed)
      (normalizeUrlStr url parsed) = none)
    (ha : lookup2 data.allowedUrls (compositeKeyStr url parsed)
      (normalizeUrlStr url parsed) = none)
    (hin : au.contains url = true) :
    onUpdated extId au (some url) parsed (Except.ok data) = skipResult := by
  have hbp : isBlockPage extId url = false := by
    cases hbp0 : isBlockPage extId url with
    | false => rfl
    | true =>
      exfalso
      have hall : isExemptUrl extId url = true := by simp [isExemptUrl, hbp0]
      rw [hall] at hex
      cases hex
  have hmem : url ∈ au := by simpa using hin
  simp [onUpdated, hhttp, hsd, noActiveSession, hstate, hex, hbp, hb, ha, hin, hmem, skipResult]

/-- Witness for C3 amended: a concrete in-flight URL is skipped by
`tabs.onUpdated`. -/
theorem c3_in_flight_suppresses_onUpdated_witness :
    onUpdated "extidw3" ["https://f.test/u"] (some "https://f.test/u")
      (some ⟨"https", "f.test", "", "/u", [], ""⟩)
      (Except.ok ⟨some ⟨"active", 0, 900, "proj", []⟩, [], []⟩) = skipResult :=
  c3_in_flight_suppresses_onUpdated "extidw3" ["https://f.test/u"] "https://f.test/u"
    (some ⟨"https", "f.test", "", "/u", [], ""⟩)
    ⟨some ⟨"active", 0, 900, "proj", []⟩, [], []⟩ ⟨"active", 0, 900, "proj", []⟩
    (by decide) rfl rfl (by decide) (by decide) (by decide) (by decide)

/-- C4, counterexample.  The claim says a failed analysis call writes no
cache entry, shows the error state, and nevertheless removes the urlKey's
in-flight marker.  A non-ok HTTP response indeed writes nothing and shows
the error section — but it sends no classification message, and the
in-flight marker is removed only by the `URL_BLOCKED` / `URL_ALLOWED`
message handlers: the background state still holds `https://g.test/p` in
`activeUrls` afterwards (the marker is not removed). -/
theorem c4_failure_keeps_in_flight_counterexample :
    handleAnalysis "https://g.test/p" ⟨"https", "g.test", "", "/p", [], ""⟩
      none 1000 (FetchOutcome.httpResponse false ⟨true, ""⟩) = ⟨"error", [], none⟩ ∧
    processMessages ⟨[], [], ["https://g.test/p"]⟩
      (handleAnalysis "https://g.test/p" ⟨"https", "g.test", "", "/p", [], ""⟩
        none 1000 (FetchOutcome.httpResponse false ⟨true, ""⟩)).messages 1000 =
      ⟨[], [], ["https://g.test/p"]⟩ := by
  refine ⟨by decide, by decide⟩

/-- C4, amended.  On a failed analysis call (network error or non-ok HTTP
response, no valid sessionStorage cache) the analysis page shows the error
section, sends no classification message, and performs no navigation —
hence no entry is written to either cache set and the background state is
unchanged, which also means the in-flight marker is NOT removed on
failure.  The marker is removed exactly when a classification message is
processed: after `onMessage` the message's URL is no longer in
`activeUrls`. -/
theorem c4_failure_semantics (originalUrl : String) (pu : JsUrl) (now : Nat)
    (r : ARes) (st : BgState) (m : UrlMsg) :
    handleAnalysis originalUrl pu none now FetchOutcome.networkError = ⟨"error", [], none⟩ ∧
    handleAnalysis originalUrl pu none now (FetchOutcome.httpResponse false r) =
      ⟨"error", [], none⟩ ∧
    processMessages st [] now = st ∧
    m.urlStr ∉ (onMessage st m now).activeUrls := by
  refine ⟨rfl, rfl, rfl, ?_⟩
  cases hk : m.kind with
  | blocked =>
    simp [onMessage, hk, List.mem_filter]
  | allowed =>
    simp [onMessage, hk, List.mem_filter]

/-- C5, counterexample.  The claim says that on an active-to-inactive
transition every open non-exempt tab is rewritten to the block page with
reason `session-ended`.  The `blockAllTabs` actually wired to the
transition in `src/extension/background.js` rewrites nothing: with three
non-exempt tabs open it creates one landing tab with reason
`before-block` and closes all three (`updated` is empty, no
`session-ended` reason appears). -/
theorem c5_session_end_closes_not_rewrites_counterexample :
    onSessionChangedOpera (some ⟨"active", 0, 900, "proj", []⟩) none
      [⟨1, "https://a.test/x"⟩, ⟨2, "https://b.test/y"⟩, ⟨3, "https://c.test/z"⟩] 4 =
      some ⟨some "before-block", [1, 2, 3], []⟩ := by
  decide

/-- C5, amended.  On the active-to-inactive transition the current Opera
engine empties the browser of prior tabs rather than rewriting them: every
previously open tab is closed (so no tab remains on a non-exempt
destination) and a single `before-block` landing tab is created.  The
per-tab rewrite to the block page with reason `session-ended` claimed by
the spec exists only in the older variant (`src/unnamed/part_006`), whose
`blockAllTabs` rewrites every tab with a non-empty non-exempt URL to that
target. -/
theorem c5_session_end_teardown (extId : String) (tabs : List TabInfo)
    (t : TabInfo) (newTabId : Nat) (oldS : SessionData)
    (hactive : oldS.state = "active")
    (ht : t ∈ tabs) (hu : t.url ≠ "") (hex : isExemptUrlP6 extId t.url = false)
    (hfresh : ∀ x ∈ tabs, x.id ≠ newTabId) :
    onSessionChangedOpera (some oldS) none tabs newTabId =
      some ⟨some "before-block", tabs.map (fun x => x.id), []⟩ ∧
    (t.id, blockT "session-ended" t.url none none none none none) ∈
      (blockAllTabsP6 extId tabs).updated := by
  constructor
  · have htr : sessionBecameInactive (some oldS) none = true := by
      simp [sessionBecameInactive, hactive]
    have hfilter : tabs.filter (fun x => x.id != newTabId) = tabs := by
      rw [List.filter_eq_self]
      intro a ha
      simpa using hfresh a ha
    simp [onSessionChangedOpera, htr, blockAllTabsOpera, hfilter]
  · simp only [blockAllTabsP6, List.mem_map]
    refine ⟨t, ?_, rfl⟩
    rw [List.mem_filter]
    exact ⟨ht, by simp [hu, hex]⟩

/-- Witness for C5 amended at a concrete teardown: three non-exempt tabs,
fresh landing-tab id 4. -/
theorem c5_session_end_teardown_witness :
    onSessionChangedOpera (some ⟨"active", 0, 900, "w", []⟩) none
      [⟨1, "https://h.test/a"⟩, ⟨2, "https://i.test/b"⟩] 4 =
      some ⟨some "before-block",
        ([⟨1, "https://h.test/a"⟩, ⟨2, "https://i.test/b"⟩] : List TabInfo).map (fun x => x.id),
        []⟩ ∧
    ((1 : Nat), blockT "session-ended" "https://h.test/a" none none none none none) ∈
      (blockAllTabsP6 "extidw5"
        [⟨1, "https://h.test/a"⟩, ⟨2, "https://i.test/b"⟩]).updated :=
  c5_session_end_teardown "extidw5"
    [⟨1, "https://h.test/a"⟩, ⟨2, "https://i.test/b"⟩] ⟨1, "https://h.test/a"⟩ 4
    ⟨"active", 0, 900, "w", []⟩ rfl (by decide) (by decide) (by decide)
    (by intro x hx; fin_cases hx <;> decide)

/-- C6, counterexample.  The claim says the allowed-set and blocked-set are
mutually exclusive for the same key at any instant.  Processing
`URL_ALLOWED` and then `URL_BLOCKED` for the same URL
`https://example.com/x` (key `example.com/x`) leaves an entry for that key
in BOTH sets: neither message handler removes the key from the opposite
set. -/
theorem c6_key_in_both_sets_counterexample :
    (objLookup (onMessage (onMessage ⟨[], [], []⟩
        ⟨MsgKind.allowed, "https://example.com/x",
          ⟨"https", "example.com", "", "/x", [], ""⟩, "good"⟩ 10)
        ⟨MsgKind.blocked, "https://example.com/x",
          ⟨"https", "example.com", "", "/x", [], ""⟩, "bad"⟩ 20).allowedUrls
      "example.com/x").isSome = true ∧
    (objLookup (onMessage (onMessage ⟨[], [], []⟩
        ⟨MsgKind.allowed, "https://example.com/x",
          ⟨"https", "example.com", "", "/x", [], ""⟩, "good"⟩ 10)
        ⟨MsgKind.blocked, "https://example.com/x",
          ⟨"https", "example.com", "", "/x", [], ""⟩, "bad"⟩ 20).blockedUrls
      "example.com/x").isSome = true := by
  refine ⟨by decide, by decide⟩

/-- C6, amended.  Within each set the per-key uniqueness and the
overwrite-on-later-classification hold: a store is a key-indexed object,
`objSet` keeps its keys duplicate-free and a later `objSet` for the same
key replaces the earlier value; and each message handler leaves the
opposite set untouched — which is exactly why the two sets are NOT
mutually exclusive across verdict changes (see the counterexample). -/
theorem c6_per_set_uniqueness_and_overwrite (m : List (String × Entry))
    (k : String) (v : Entry) (st : BgState) (mb ma : UrlMsg) (now : Nat)
    (hnodup : (m.map Prod.fst).Nodup)
    (hkb : mb.kind = MsgKind.blocked) (hka : ma.kind = MsgKind.allowed) :
    ((objSet m k v).map Prod.fst).Nodup ∧
    objLookup (objSet m k v) k = some v ∧
    (onMessage st mb now).allowedUrls = st.allowedUrls ∧
    (onMessage st ma now).blockedUrls = st.blockedUrls := by
  refine ⟨nodup_keys_objSet m k v hnodup, objLookup_objSet_self m k v, ?_, ?_⟩
  · simp [onMessage, hkb]
  · simp [onMessage, hka]

/-- Witness for C6 amended at concrete inputs: overwriting the key `k` in
a one-entry store and running the two handlers on a concrete state. -/
theorem c6_per_set_uniqueness_and_overwrite_witness :
    ((objSet [("k", ⟨"u1", 1, "r1", ""⟩)] "k" ⟨"u2", 2, "r2", ""⟩).map Prod.fst).Nodup ∧
    objLookup (objSet [("k", ⟨"u1", 1, "r1", ""⟩)] "k" ⟨"u2", 2, "r2", ""⟩) "k" =
      some ⟨"u2", 2, "r2", ""⟩ ∧
    (onMessage ⟨[("b", ⟨"", 0, "", ""⟩)], [("a", ⟨"", 0, "", ""⟩)], []⟩
      ⟨MsgKind.blocked, "https://j.test/q", ⟨"https", "j.test", "", "/q", [], ""⟩, "r"⟩
      30).allowedUrls = [("a", ⟨"", 0, "", ""⟩)] ∧
    (onMessage ⟨[("b", ⟨"", 0, "", ""⟩)], [("a", ⟨"", 0, "", ""⟩)], []⟩
      ⟨MsgKind.allowed, "https://j.test/q", ⟨"https", "j.test", "", "/q", [], ""⟩, "r"⟩
      30).blockedUrls = [("b", ⟨"", 0, "", ""⟩)] :=
  c6_per_set_uniqueness_and_overwrite [("k", ⟨"u1", 1, "r1", ""⟩)] "k" ⟨"u2", 2, "r2", ""⟩
    ⟨[("b", ⟨"", 0, "", ""⟩)], [("a", ⟨"", 0, "", ""⟩)], []⟩
    ⟨MsgKind.blocked, "https://j.test/q", ⟨"https", "j.test", "", "/q", [], ""⟩, "r"⟩
    ⟨MsgKind.allowed, "https://j.test/q", ⟨"https", "j.test", "", "/q", [], ""⟩, "r"⟩
    30 (by decide) rfl rfl

/-- Unfolding lemma: `strToLower` maps `Char.toLower` over the data. -/
theorem strToLower_data (s : String) : (strToLower s).data = s.data.map Char.toLower := rfl

/-- C8, counterexample.  The claim says two URLs on the same search-engine
host with different queries always get different urlKeys and never share a
cache entry.  The normalizer lowercases the whole per-search key, so
`q=CATS` and `q=cats` (different queries) produce the SAME
`normalizeUrl` key; and since every cache read falls back to the
normalized key (`m[compositeKey] || m[normalizedUrl]`), a single entry
stored under that normalized key is returned for both searches. -/
theorem c8_case_query_collision_counterexample :
    extractSearchQuery ⟨"https", "www.google.com", "", "/search", [("q", "CATS")], ""⟩ ≠
      extractSearchQuery ⟨"https", "www.google.com", "", "/search", [("q", "cats")], ""⟩ ∧
    normalizeUrl ⟨"https", "www.google.com", "", "/search", [("q", "CATS")], ""⟩ =
      normalizeUrl ⟨"https", "www.google.com", "", "/search", [("q", "cats")], ""⟩ ∧
    lookup2 [(normalizeUrl ⟨"https", "www.google.com", "", "/search", [("q", "CATS")], ""⟩,
        ⟨"", 0, "distraction", ""⟩)]
      (compositeKey ⟨"https", "www.google.com", "", "/search", [("q", "CATS")], ""⟩)
      (normalizeUrl ⟨"https", "www.google.com", "", "/search", [("q", "CATS")], ""⟩) =
      some ⟨"", 0, "distraction", ""⟩ ∧
    lookup2 [(normalizeUrl ⟨"https", "www.google.com", "", "/search", [("q", "CATS")], ""⟩,
        ⟨"", 0, "distraction", ""⟩)]
      (compositeKey ⟨"https", "www.google.com", "", "/search", [("q", "cats")], ""⟩)
      (normalizeUrl ⟨"https", "www.google.com", "", "/search", [("q", "cats")], ""⟩) =
      some ⟨"", 0, "distraction", ""⟩ := by
  refine ⟨by decide, by decide, by decide, by decide⟩

/-- C8, amended.  Search-query key independence holds up to the
lowercasing folded into the per-search key: for two URLs on the same
search-engine origin whose (non-empty) queries still differ after
lowercasing, the URL Key Normalizer produces two different normalized keys
AND two different composite keys.  Queries that differ only in letter case
(or the pair empty-vs-`home`) share the normalized key, which remains in
use as the fallback lookup key — see the counterexample. -/
theorem c8_distinct_queries_distinct_keys (u1 u2 : JsUrl)
    (hhost1 : isSearchHost u1.host = true)
    (hs : u1.scheme = u2.scheme) (hh : u1.host = u2.host) (hp : u1.port = u2.port)
    (hq1 : extractSearchQuery u1 ≠ "") (hq2 : extractSearchQuery u2 ≠ "")
    (hq : strToLower (extractSearchQuery u1) ≠ strToLower (extractSearchQuery u2)) :
    normalizeUrl u1 ≠ normalizeUrl u2 ∧ compositeKey u1 ≠ compositeKey u2 := by
  have hb1 : (extractSearchQuery u1 == "") = false := beq_eq_false_iff_ne.mpr hq1
  have hb2 : (extractSearchQuery u2 == "") = false := beq_eq_false_iff_ne.mpr hq2
  have hhost2 : isSearchHost u2.host = true := hh ▸ hhost1
  have horig : jsOrigin u1 = jsOrigin u2 := by simp [jsOrigin, hs, hh, hp]
  have e1 : normalizeUrl u1 =
      strToLower ((jsOrigin u1 ++ "/search/") ++ extractSearchQuery u1) := by
    simp only [normalizeUrl, hhost1, if_true, hb1, Bool.false_eq_true, if_false]
  have e2 : normalizeUrl u2 =
      strToLower ((jsOrigin u1 ++ "/search/") ++ extractSearchQuery u2) := by
    simp only [normalizeUrl, hhost2, if_true, hb2, Bool.false_eq_true, if_false, horig]
  have hql : extractSearchQuery u1 ≠ extractSearchQuery u2 := by
    intro hcontra
    exact hq (by rw [hcontra])
  constructor
  · intro heq
    rw [e1, e2] at heq
    have hd := congrArg String.data heq
    simp only [strToLower_data, String.data_append, List.map_append, List.append_assoc] at hd
    have hc := List.append_cancel_left (List.append_cancel_left hd)
    exact hq (String.ext (by simpa [strToLower_data] using hc))
  · intro heq
    simp only [compositeKey, hb1, Bool.false_eq_true, if_false, hb2] at heq
    have hd := congrArg String.data heq
    simp only [String.data_append] at hd
    have hlen := congrArg List.length hd
    simp only [List.length_append] at hlen
    have hlen1 : (normalizeUrl u1).data.length =
        ((jsOrigin u1).data.length + ("/search/" : String).data.length) +
          (extractSearchQuery u1).data.length := by
      rw [e1]
      simp only [strToLower_data, String.data_append, List.length_map, List.length_append]
    have hlen2 : (normalizeUrl u2).data.length =
        ((jsOrigin u1).data.length + ("/search/" : String).data.length) +
          (extractSearchQuery u2).data.length := by
      rw [e2]
      simp only [strToLower_data, String.data_append, List.length_map, List.length_append]
    have hqlen : (extractSearchQuery u1).data.length = (extractSearchQuery u2).data.length := by
      omega
    have hfirst : ((normalizeUrl u1).data ++ ("::" : String).data).length =
        ((normalizeUrl u2).data ++ ("::" : String).data).length := by
      simp only [List.length_append]
      omega
    have hinj := List.append_inj hd hfirst
    exact hql (String.ext hinj.2)

/-- Witness for C8 amended: `q=cats` versus `q=dogs` on the same Google
origin produce different normalized keys and different composite keys. -/
theorem c8_distinct_queries_distinct_keys_witness :
    normalizeUrl ⟨"https", "www.google.com", "", "/search", [("q", "cats")], ""⟩ ≠
      normalizeUrl ⟨"https", "www.google.com", "", "/search", [("q", "dogs")], ""⟩ ∧
    compositeKey ⟨"https", "www.google.com", "", "/search", [("q", "cats")], ""⟩ ≠
      compositeKey ⟨"https", "www.google.com", "", "/search", [("q", "dogs")], ""⟩ :=
  c8_distinct_queries_distinct_keys
    ⟨"https", "www.google.com", "", "/search", [("q", "cats")], ""⟩
    ⟨"https", "www.google.com", "", "/search", [("q", "dogs")], ""⟩
    (by decide) rfl rfl rfl (by decide) (by decide) (by decide)
